import Mathlib

/-!
Shallow embedding of the way-cooler compositor core (C sources) used to
check the specification's claims about input routing, the cursor grab
state machine, the mousegrabber and keybindings protocols, the
layer-shell arranger and the per-output render loop.

Conventions of the embedding:
* wlroots pointers become small integer identifiers (`Nat`); a nullable
  pointer becomes an `Option Nat`.
* The double-valued cursor coordinates become `Int`; all concrete
  scenarios in the spec use integral coordinates, where the C arithmetic
  is exact.
* Side effects (seat notifications, protocol events, damage, configure)
  become values of explicit effect types returned alongside the new state.
* The role-specific `surface_at` hit test (`wlr_xdg_surface_surface_at` /
  `wlr_surface_surface_at`) is modelled as point-in-geometry-box of the
  view, yielding the view's main surface and surface-local coordinates.
-/

set_option linter.unusedVariables false

namespace WayCooler

/-- A `wlr_box`: an integer rectangle in output-layout coordinates. -/
structure WlrBox where
  x : Int
  y : Int
  width : Int
  height : Int
deriving Repr, DecidableEq

/-- `enum wc_cursor_mode` from cursor.h. -/
inductive WcCursorMode
  | passthrough
  | move
  | resize
deriving Repr, DecidableEq

/-- The `grabbed` record inside `struct wc_cursor` (cursor.h):
original cursor/view data snapshotted when an interactive grab starts.
`view` is the (weak) pointer to the grabbed view, as a view id. -/
structure WcGrabbed where
  view : Option Nat
  original_x : Int
  original_y : Int
  original_view_geo : WlrBox
  resize_edges : Nat
deriving Repr, DecidableEq

/-- The image currently applied to the `wlr_cursor`: either a named
xcursor-theme image (`wlr_xcursor_manager_set_cursor_image`) or a
client-provided surface with hotspot (`wlr_cursor_set_surface`). -/
inductive CursorImage
  | named (name : String)
  | surface (surface : Nat) (hotspot_x hotspot_y : Int)
deriving Repr, DecidableEq

/-- `struct wc_view` (view.h): one application window.  `id` stands for
the view's main `wlr_surface` pointer. -/
structure WcView where
  id : Nat
  mapped : Bool
  geo : WlrBox
  pending_geometry : WlrBox
  is_pending_serial : Bool
deriving Repr, DecidableEq

/-- `struct wc_mousegrabber` (mousegrabber.h): the single grabber
client resource and client, both nullable. -/
structure WcMousegrabber where
  resource : Option Nat
  client : Option Nat
deriving Repr, DecidableEq

/-- `struct wc_cursor` (cursor.h). -/
structure WcCursor where
  x : Int
  y : Int
  compositor_image : Option String
  use_client_image : Bool
  default_image : String
  cursor_mode : WcCursorMode
  grabbed : WcGrabbed
deriving Repr, DecidableEq

/-- One output's rectangle in the output layout, for
`wlr_output_layout_output_at` and active-output tracking. -/
structure WcOutputRef where
  id : Nat
  lx : Int
  ly : Int
  width : Int
  height : Int
deriving Repr, DecidableEq

/-- The slice of `struct wc_server` that the cursor, view and
mousegrabber code paths touch.  `applied_image` is the image currently
set on the hardware cursor; `software_cursors_locked` abbreviates the
per-output `wlr_output_lock_software_cursors` state (all outputs are
always locked/unlocked together by the code). -/
structure WcServer where
  cursor : WcCursor
  mouse_grab : Bool
  mousegrabber : WcMousegrabber
  views : List WcView
  outputs : List WcOutputRef
  active_output : Option Nat
  pointer_focused_surface : Option Nat
  keyboard_focused_surface : Option Nat
  applied_image : CursorImage
  software_cursors_locked : Bool
deriving Repr, DecidableEq

/-- Side effects emitted by the cursor/view/mousegrabber code paths. -/
inductive Effect
  | damage_whole_view (view : Nat) (geo : WlrBox)
  | seat_pointer_notify_button (time button : Nat) (pressed : Bool)
  | seat_pointer_enter (surface : Nat) (sx sy : Int)
  | seat_pointer_motion (time : Nat) (sx sy : Int)
  | seat_pointer_clear_focus
  | mousegrabber_mouse_moved (x y : Int)
  | mousegrabber_mouse_button (x y : Int) (pressed : Bool) (button : Nat)
  | view_configure (view : Nat) (width height : Int)
  | set_activated (view : Nat) (activated : Bool)
  | keyboard_enter (surface : Nat)
deriving Repr, DecidableEq

/-- Protocol errors of the mousegrabber interface. -/
inductive MousegrabberError
  | already_grabbed
  | not_grabbed
deriving Repr, DecidableEq

/-- `WLR_EDGE_TOP`. -/
def WLR_EDGE_TOP : Nat := 1

/-- `WLR_EDGE_BOTTOM`. -/
def WLR_EDGE_BOTTOM : Nat := 2

/-- `WLR_EDGE_LEFT`. -/
def WLR_EDGE_LEFT : Nat := 4

/-- `WLR_EDGE_RIGHT`. -/
def WLR_EDGE_RIGHT : Nat := 8

/-- `wc_is_view_at` (view.c): whether the point lies on the view; the
wlroots surface-tree hit test is modelled as the view's geometry box. -/
def wc_is_view_at (view : WcView) (lx ly : Int) : Bool :=
  decide (view.geo.x ≤ lx) && decide (lx < view.geo.x + view.geo.width) &&
  decide (view.geo.y ≤ ly) && decide (ly < view.geo.y + view.geo.height)

/-- `wc_view_at` (view.c): walk the top-to-bottom view list, first hit
wins. -/
def wc_view_at (views : List WcView) (lx ly : Int) : Option WcView :=
  views.find? (fun v => wc_is_view_at v lx ly)

/-- `wlr_output_layout_output_at`: the output whose layout box contains
the point. -/
def wlr_output_layout_output_at (outputs : List WcOutputRef) (x y : Int) :
    Option WcOutputRef :=
  outputs.find? (fun o =>
    decide (o.lx ≤ x) && decide (x < o.lx + o.width) &&
    decide (o.ly ≤ y) && decide (y < o.ly + o.height))

/-- `wc_seat_update_surface_focus` (seat.c): clear pointer focus when no
surface; otherwise notify enter, and also motion when focus did not
change.  Returns the new pointer-focused surface and the notifications. -/
def wc_seat_update_surface_focus (focused : Option Nat) (surface : Option Nat)
    (sx sy : Int) (time : Nat) : Option Nat × List Effect :=
  match surface with
  | none => (none, [Effect.seat_pointer_clear_focus])
  | some s =>
      let focused_changed := focused ≠ some s
      if focused_changed then
        (some s, [Effect.seat_pointer_enter s sx sy])
      else
        (some s, [Effect.seat_pointer_enter s sx sy,
                  Effect.seat_pointer_motion time sx sy])

/-- `wc_mousegrabber_notify_mouse_moved` (mousegrabber.c): send
`mouse_moved` to the grabber when a grabber resource is bound. -/
def wc_mousegrabber_notify_mouse_moved (mg : WcMousegrabber) (x y : Int) :
    List Effect :=
  match mg.resource with
  | none => []
  | some _ => [Effect.mousegrabber_mouse_moved x y]

/-- `wc_mousegrabber_notify_mouse_button` (mousegrabber.c): send
`mouse_button` to the grabber when a grabber resource is bound.
NOTE this function exists in the source but has no caller. -/
def wc_mousegrabber_notify_mouse_button (mg : WcMousegrabber) (x y : Int)
    (pressed : Bool) (button : Nat) : List Effect :=
  match mg.resource with
  | none => []
  | some _ => [Effect.mousegrabber_mouse_button x y pressed button]

/-- `wc_cursor_set_client_cursor` (cursor.c): honour or drop the
client-provided cursor image.  `event` carries surface id and hotspot. -/
def wc_cursor_set_client_cursor (server : WcServer)
    (event : Option (Nat × Int × Int)) : WcServer :=
  let cursor := server.cursor
  let use_client_image := event.isSome
  let server :=
    if cursor.compositor_image = none then
      match event with
      | some (s, hx, hy) =>
          { server with applied_image := CursorImage.surface s hx hy }
      | none =>
          if use_client_image ≠ cursor.use_client_image then
            let image :=
              match cursor.compositor_image with
              | some img => img
              | none => cursor.default_image
            { server with applied_image := CursorImage.named image }
          else server
    else server
  { server with
      cursor := { server.cursor with use_client_image := use_client_image } }

/-- `wc_cursor_set_compositor_cursor` (cursor.c): install (or clear,
when `cursor_name = none`) the compositor-forced cursor image, managing
the software-cursor lock on all outputs. -/
def wc_cursor_set_compositor_cursor (server : WcServer)
    (cursor_name : Option String) : WcServer :=
  let cursor := server.cursor
  let skip_lock :=
    match cursor_name with
    | some _ => cursor.compositor_image.isSome
    | none => false
  let lock_software_cursors := cursor_name.isSome
  let copy := cursor_name
  let server :=
    { server with cursor := { server.cursor with compositor_image := copy } }
  let server :=
    if skip_lock = true then server
    else { server with software_cursors_locked := lock_software_cursors }
  let image :=
    match server.cursor.compositor_image with
    | some img => img
    | none => server.cursor.default_image
  { server with applied_image := CursorImage.named image }

/-- `grab_mouse` (mousegrabber.c): fails with `ALREADY_GRABBED` when a
grabber resource is already bound; otherwise records the grabber, sets
`mouse_grab`, resets the cursor mode to passthrough and installs the
requested cursor image. -/
def grab_mouse (server : WcServer) (client resource : Nat)
    (new_cursor_name : String) : WcServer × Option MousegrabberError :=
  if server.mousegrabber.resource ≠ none then
    (server, some MousegrabberError.already_grabbed)
  else
    let server :=
      { server with
          mousegrabber := { resource := some resource, client := some client },
          mouse_grab := true,
          cursor := { server.cursor with cursor_mode := WcCursorMode.passthrough } }
    (wc_cursor_set_compositor_cursor server (some new_cursor_name), none)

/-- `mousegrabber_handle_resource_destroy` (mousegrabber.c): clear the
stored pointers when the destroyed resource is the stored one. -/
def mousegrabber_handle_resource_destroy (mg : WcMousegrabber)
    (resource : Nat) : WcMousegrabber :=
  if mg.resource = some resource then { resource := none, client := none }
  else mg

/-- `release_mouse` (mousegrabber.c): fails with `NOT_GRABBED` unless
the caller is the current grabber; otherwise clears `mouse_grab`,
restores the cursor image via `wc_cursor_set_compositor_cursor NULL`
and destroys the grabber resource. -/
def release_mouse (server : WcServer) (client : Nat) :
    WcServer × Option MousegrabberError :=
  if server.mousegrabber.resource = none ∨
      server.mousegrabber.client ≠ some client then
    (server, some MousegrabberError.not_grabbed)
  else
    match server.mousegrabber.resource with
    | none => (server, some MousegrabberError.not_grabbed)
    | some r =>
        let server := { server with mouse_grab := false }
        let server := wc_cursor_set_compositor_cursor server none
        ({ server with
            mousegrabber :=
              mousegrabber_handle_resource_destroy server.mousegrabber r },
          none)

/-- `wc_focus_view` (view.c): deactivate the previous toplevel, raise
the view to the head of the list, activate it and send keyboard enter.
A view that is already focused is left alone. -/
def wc_focus_view (server : WcServer) (vid : Nat) : WcServer × List Effect :=
  match server.views.find? (fun v => v.id = vid) with
  | none => (server, [])
  | some view =>
      if server.keyboard_focused_surface = some vid then (server, [])
      else
        let deactivate :=
          match server.keyboard_focused_surface with
          | some prev => [Effect.set_activated prev false]
          | none => []
        let views := view :: server.views.filter (fun v => ¬(v.id = vid))
        ({ server with
            views := views,
            keyboard_focused_surface := some vid },
          deactivate ++
            [Effect.damage_whole_view vid view.geo,
             Effect.set_activated vid true,
             Effect.keyboard_enter vid])

/-- `wc_view_move` (view.c): start an interactive move grab, snapshotting
the cursor offset relative to the view and the original geometry.  The
request is ignored unless the view's surface is pointer-focused. -/
def wc_view_move (server : WcServer) (vid : Nat) (geo : WlrBox) : WcServer :=
  match server.views.find? (fun v => v.id = vid) with
  | none => server
  | some view =>
      if server.pointer_focused_surface ≠ some vid then server
      else
        { server with
            cursor := { server.cursor with
              cursor_mode := WcCursorMode.move,
              grabbed := {
                view := some vid,
                original_x := server.cursor.x - view.geo.x,
                original_y := server.cursor.y - view.geo.y,
                original_view_geo :=
                  { x := view.geo.x, y := view.geo.y,
                    width := geo.width, height := geo.height },
                resize_edges := server.cursor.grabbed.resize_edges } } }

/-- `wc_view_resize` (view.c): start an interactive resize grab; here
the snapshotted cursor coordinates are absolute. -/
def wc_view_resize (server : WcServer) (vid : Nat) (geo : WlrBox)
    (edges : Nat) : WcServer :=
  match server.views.find? (fun v => v.id = vid) with
  | none => server
  | some view =>
      if server.pointer_focused_surface ≠ some vid then server
      else
        { server with
            cursor := { server.cursor with
              cursor_mode := WcCursorMode.resize,
              grabbed := {
                view := some vid,
                original_x := server.cursor.x,
                original_y := server.cursor.y,
                original_view_geo :=
                  { x := view.geo.x, y := view.geo.y,
                    width := geo.width, height := geo.height },
                resize_edges := edges } } }

/-- `wc_view_update_geometry` (view.c): record the pending geometry and
send a configure with the new size. -/
def wc_view_update_geometry (server : WcServer) (vid : Nat)
    (new_geo : WlrBox) : WcServer × List Effect :=
  ({ server with
      views := server.views.map (fun v =>
        if v.id = vid then
          { v with pending_geometry := new_geo, is_pending_serial := true }
        else v) },
    [Effect.view_configure vid new_geo.width new_geo.height])

/-- `wc_xdg_surface_destroy` (xdg.c) / `wc_xwayland_surface_destroy`
(xwayland.c): remove the view from the server's list and free it.
Neither handler touches the cursor's mode or its grab record. -/
def wc_xdg_surface_destroy (server : WcServer) (vid : Nat) : WcServer :=
  { server with views := server.views.filter (fun v => ¬(v.id = vid)) }

/-- The new-geometry computation of the `WC_CURSOR_RESIZE` branch of
`wc_process_motion` (cursor.c). -/
def wc_resize_new_geo (cursor : WcCursor) (view : WcView) : WlrBox :=
  let dx := cursor.x - cursor.grabbed.original_x
  let dy := cursor.y - cursor.grabbed.original_y
  let new_geo : WlrBox :=
    { x := view.geo.x, y := view.geo.y,
      width := cursor.grabbed.original_view_geo.width,
      height := cursor.grabbed.original_view_geo.height }
  let new_geo :=
    if cursor.grabbed.resize_edges &&& WLR_EDGE_TOP ≠ 0 then
      let g := { new_geo with
        y := cursor.grabbed.original_view_geo.y + dy,
        height := new_geo.height - dy }
      if g.height < 1 then { g with y := g.y + g.height } else g
    else if cursor.grabbed.resize_edges &&& WLR_EDGE_BOTTOM ≠ 0 then
      { new_geo with height := new_geo.height + dy }
    else new_geo
  if cursor.grabbed.resize_edges &&& WLR_EDGE_LEFT ≠ 0 then
    let g := { new_geo with
      x := cursor.grabbed.original_view_geo.x + dx,
      width := new_geo.width - dx }
    if g.width < 1 then { g with x := g.x + g.width } else g
  else if cursor.grabbed.resize_edges &&& WLR_EDGE_RIGHT ≠ 0 then
    { new_geo with width := new_geo.width + dx }
  else new_geo

/-- The active-output re-evaluation at the end of `wc_process_motion`. -/
def wc_update_active_output (server : WcServer) : WcServer :=
  let active := wlr_output_layout_output_at server.outputs
      server.cursor.x server.cursor.y
  match active with
  | none => server
  | some o =>
      if server.active_output ≠ some o.id then
        { server with active_output := some o.id }
      else server

/-- `wc_process_motion` (cursor.c): per-mode motion processing, then
active-output re-evaluation, then `mouse_moved` to the mousegrabber.
When the grab record references a view that is no longer in the list the
C code dereferences freed memory; the model leaves the state unchanged
in that (memory-unsafe) situation. -/
def wc_process_motion (server : WcServer) (time : Nat) :
    WcServer × List Effect :=
  let cursor := server.cursor
  let (server, effects) :=
    match cursor.cursor_mode with
    | WcCursorMode.move =>
        match cursor.grabbed.view with
        | none => (server, [])
        | some vid =>
            match server.views.find? (fun v => v.id = vid) with
            | none => (server, [])
            | some view =>
                let new_geo := { view.geo with
                  x := cursor.x - cursor.grabbed.original_x,
                  y := cursor.y - cursor.grabbed.original_y }
                ({ server with views := server.views.map (fun v =>
                      if v.id = vid then { v with geo := new_geo } else v) },
                  [Effect.damage_whole_view vid view.geo,
                   Effect.damage_whole_view vid new_geo])
    | WcCursorMode.resize =>
        match cursor.grabbed.view with
        | none => (server, [])
        | some vid =>
            match server.views.find? (fun v => v.id = vid) with
            | none => (server, [])
            | some view =>
                wc_view_update_geometry server vid (wc_resize_new_geo cursor view)
    | WcCursorMode.passthrough =>
        let found := wc_view_at server.views cursor.x cursor.y
        let server :=
          if found = none ∧ cursor.use_client_image then
            wc_cursor_set_client_cursor server none
          else server
        match found with
        | none =>
            let (focused, fx) := wc_seat_update_surface_focus
                server.pointer_focused_surface none 0 0 time
            ({ server with pointer_focused_surface := focused }, fx)
        | some view =>
            let sx := cursor.x - view.geo.x
            let sy := cursor.y - view.geo.y
            let (focused, fx) := wc_seat_update_surface_focus
                server.pointer_focused_surface (some view.id) sx sy time
            ({ server with pointer_focused_surface := focused }, fx)
  let server := wc_update_active_output server
  (server,
    effects ++ wc_mousegrabber_notify_mouse_moved server.mousegrabber
      server.cursor.x server.cursor.y)

/-- A `wlr_event_pointer_button`. -/
structure PointerButtonEvent where
  time_msec : Nat
  button : Nat
  pressed : Bool
deriving Repr, DecidableEq

/-- `wc_cursor_button` (cursor.c): when `mouse_grab` is held the handler
returns immediately; otherwise the seat is notified, release returns
the cursor to passthrough, and a press focuses the view under the
cursor. -/
def wc_cursor_button (server : WcServer) (event : PointerButtonEvent) :
    WcServer × List Effect :=
  if server.mouse_grab then (server, [])
  else
    let effects := [Effect.seat_pointer_notify_button
        event.time_msec event.button event.pressed]
    let found := wc_view_at server.views server.cursor.x server.cursor.y
    if ¬event.pressed then
      ({ server with
          cursor := { server.cursor with
            cursor_mode := WcCursorMode.passthrough } },
        effects)
    else
      match found with
      | some view =>
          let (server, fx) := wc_focus_view server view.id
          (server, effects ++ fx)
      | none => (server, effects)

/-! Keybindings protocol and keyboard key handler
(xkb_hash_set.c, keybindings.c, keyboard.c). -/

/-- `struct hash_entry` (xkb_hash_set.h): a stored modifier mask and
a presence flag. -/
structure HashEntry where
  mod_mask : Nat
  present : Bool
deriving Repr, DecidableEq

/-- `struct xkb_hash_set` (xkb_hash_set.h): an array indexed by
keycode, modelled as a total function. -/
structure XkbHashSet where
  set : Nat → HashEntry

/-- `xkb_hash_set_clear` (xkb_hash_set.c): zero every entry. -/
def xkb_hash_set_clear : XkbHashSet :=
  ⟨fun _ => { mod_mask := 0, present := false }⟩

/-- `xkb_hash_set_add_entry` (xkb_hash_set.c): mark the key present and
store the mask as given.  NOTE the mask is stored unmodified; no
modifier bits are stripped. -/
def xkb_hash_set_add_entry (hash_set : XkbHashSet) (key : Nat)
    (mask : Nat) : XkbHashSet :=
  ⟨fun k => if k = key then { mod_mask := mask, present := true }
            else hash_set.set k⟩

/-- `xkb_hash_set_get_entry` (xkb_hash_set.c): presence flag plus the
stored mask through the out parameter (left at the caller's 0 when the
entry is absent). -/
def xkb_hash_set_get_entry (hash_set : XkbHashSet) (key : Nat) :
    Bool × Nat :=
  let entry := hash_set.set key
  if entry.present then (true, entry.mod_mask) else (false, 0)

/-- `struct wc_keybindings` (keybindings.h): registered chords plus the
single bound client resource/client. -/
structure WcKeybindings where
  registered_keys : XkbHashSet
  resource : Option Nat
  client : Option Nat

/-- `register_key` (keybindings.c). -/
def register_key (keybindings : WcKeybindings) (key mods : Nat) :
    WcKeybindings :=
  { keybindings with
      registered_keys :=
        xkb_hash_set_add_entry keybindings.registered_keys key mods }

/-- `wc_keybindings_clear_keys` / `clear_keys` (keybindings.c). -/
def wc_keybindings_clear_keys (keybindings : WcKeybindings) : WcKeybindings :=
  { keybindings with registered_keys := xkb_hash_set_clear }

/-- `keybindings_bind` (keybindings.c): a successful bind stores the new
resource unconditionally.  NOTE there is no already-bound check and no
protocol error; a second client's bind silently replaces the stored
resource (and `client` is never assigned here). -/
def keybindings_bind (keybindings : WcKeybindings) (resource : Nat) :
    WcKeybindings :=
  { keybindings with resource := some resource }

/-- `keybindings_handle_resource_destroy` (keybindings.c). -/
def keybindings_handle_resource_destroy (keybindings : WcKeybindings)
    (resource : Nat) : WcKeybindings :=
  if keybindings.resource = some resource then
    { keybindings with resource := none, client := none }
  else keybindings

/-- Effects of the keyboard key path. -/
inductive KeyEffect
  | send_key (time keycode : Nat) (pressed : Bool) (mods : Nat)
  | seat_notify_key (time keycode : Nat) (pressed : Bool)
  | change_vt (vt : Nat)
  | terminate_display
deriving Repr, DecidableEq

/-- `wc_keybindings_notify_key_if_registered` (keybindings.c): when a
controller resource is bound, always send the key event (with the raw
queried mask) and report it handled iff the keycode is registered with
a mask intersecting the queried one, or the keyboard-focused client is
the stored controller client. -/
def wc_keybindings_notify_key_if_registered (keybindings : WcKeybindings)
    (focused_client : Option Nat) (key_code key_mask : Nat)
    (pressed : Bool) (time : Nat) : Bool × List KeyEffect :=
  match keybindings.resource with
  | none => (false, [])
  | some _ =>
      let entry := xkb_hash_set_get_entry keybindings.registered_keys key_code
      let present := entry.1 && decide ((entry.2 &&& key_mask) ≠ 0)
      let effects := [KeyEffect.send_key time key_code pressed key_mask]
      let present :=
        if !present then
          match focused_client with
          | some fc => present || decide (keybindings.client = some fc)
          | none => present
        else present
      (present, effects)

/-- `XKB_KEY_Escape`. -/
def XKB_KEY_Escape : Nat := 0xff1b

/-- The keysym of `XF86Switch_VT_1`. -/
def XKB_KEY_XF86Switch_VT_1 : Nat := 0x1008FE01

/-- The keysym of `XF86Switch_VT_12`. -/
def XKB_KEY_XF86Switch_VT_12 : Nat := 0x1008FE0C

/-- The XKB state of a keyboard as consulted by `wc_keyboard_on_key`:
the keysyms resolved for the event's (translated) keycode, whether
Shift and Control are depressed, and the three modifier masks. -/
structure WcKeyboardState where
  syms : List Nat
  shift_depressed : Bool
  ctrl_depressed : Bool
  depressed : Nat
  latched : Nat
  locked : Nat
deriving Repr, DecidableEq

/-- A `wlr_event_keyboard_key`. -/
structure KeyEvent where
  keycode : Nat
  pressed : Bool
  time_msec : Nat
deriving Repr, DecidableEq

/-- Whether a keysym is in the `XF86Switch_VT_1 .. XF86Switch_VT_12`
range handled by the keyboard handler. -/
def vt_switch_sym (keysym : Nat) : Bool :=
  decide (XKB_KEY_XF86Switch_VT_1 ≤ keysym) &&
  decide (keysym ≤ XKB_KEY_XF86Switch_VT_12)

/-- Whether one keysym makes the sym loop of `wc_keyboard_on_key` set
`handled`: a VT-switch sym, or Escape with Shift and Control depressed
(the hard-coded terminator chord). -/
def wc_sym_handled (keyboard : WcKeyboardState) (keysym : Nat) : Bool :=
  vt_switch_sym keysym ||
    (decide (keysym = XKB_KEY_Escape) && keyboard.shift_depressed &&
      keyboard.ctrl_depressed)

/-- The `handled` flag accumulated by the sym loop of
`wc_keyboard_on_key`: set and never reset, hence a disjunction. -/
def wc_syms_handled (keyboard : WcKeyboardState) : Bool :=
  keyboard.syms.any (wc_sym_handled keyboard)

/-- The effects emitted for one keysym inside the sym loop: the VT
change (under a session-capable backend) and the display termination. -/
def wc_sym_effects (keyboard : WcKeyboardState) (keysym : Nat) :
    List KeyEffect :=
  (if vt_switch_sym keysym then
    [KeyEffect.change_vt (keysym - XKB_KEY_XF86Switch_VT_1 + 1)]
  else []) ++
  (if decide (keysym = XKB_KEY_Escape) && keyboard.shift_depressed &&
      keyboard.ctrl_depressed then
    [KeyEffect.terminate_display]
  else [])

/-- All effects of the sym loop, in sym order. -/
def wc_syms_effects (keyboard : WcKeyboardState) : List KeyEffect :=
  keyboard.syms.flatMap (wc_sym_effects keyboard)

/-- `wc_keyboard_on_key` (keyboard.c): the sym loop (VT switch and the
terminator chord), then the keybinding filter, then delivery to the
seat when nothing handled the key.  The filter is queried with the
translated keycode (`event->keycode + 8`) and the union of depressed,
latched and locked modifiers; the seat receives the raw keycode. -/
def wc_keyboard_on_key (keybindings : WcKeybindings)
    (keyboard : WcKeyboardState) (focused_client : Option Nat)
    (event : KeyEvent) : List KeyEffect :=
  let keycode := event.keycode + 8
  let handled := wc_syms_handled keyboard
  let (handled, notify_effects) :=
    if !handled then
      let modifiers := keyboard.depressed ||| keyboard.latched |||
        keyboard.locked
      wc_keybindings_notify_key_if_registered keybindings focused_client
        keycode modifiers event.pressed event.time_msec
    else (handled, [])
  let effects := wc_syms_effects keyboard ++ notify_effects
  if !handled then
    effects ++ [KeyEffect.seat_notify_key event.time_msec event.keycode
      event.pressed]
  else effects

/-! Layer-shell arranger (layer_shell.c). -/

/-- `ZWLR_LAYER_SURFACE_V1_ANCHOR_TOP`. -/
def ANCHOR_TOP : Nat := 1

/-- `ZWLR_LAYER_SURFACE_V1_ANCHOR_BOTTOM`. -/
def ANCHOR_BOTTOM : Nat := 2

/-- `ZWLR_LAYER_SURFACE_V1_ANCHOR_LEFT`. -/
def ANCHOR_LEFT : Nat := 4

/-- `ZWLR_LAYER_SURFACE_V1_ANCHOR_RIGHT`. -/
def ANCHOR_RIGHT : Nat := 8

/-- `LAYER_BOTH_HORIZ` (layer_shell.c). -/
def LAYER_BOTH_HORIZ : Nat := ANCHOR_LEFT ||| ANCHOR_RIGHT

/-- `LAYER_BOTH_VERT` (layer_shell.c). -/
def LAYER_BOTH_VERT : Nat := ANCHOR_TOP ||| ANCHOR_BOTTOM

/-- The four-sided margin of a layer surface. -/
structure LayerMargin where
  top : Int
  right : Int
  bottom : Int
  left : Int
deriving Repr, DecidableEq

/-- The `current` state of a `wlr_layer_surface_v1` consulted by the
arranger. -/
structure LayerSurfaceState where
  anchor : Nat
  desired_width : Int
  desired_height : Int
  exclusive_zone : Int
  margin : LayerMargin
  keyboard_interactive : Bool
deriving Repr, DecidableEq

/-- `struct wc_layer` (layer_shell.h): one layer surface with its
computed geometry. -/
structure WcLayer where
  id : Nat
  mapped : Bool
  geo : WlrBox
  current : LayerSurfaceState
  closed : Bool
deriving Repr, DecidableEq

/-- Effects of the arranger. -/
inductive LayerEffect
  | configure (layer : Nat) (width height : Int)
  | close (layer : Nat)
deriving Repr, DecidableEq

/-- The per-surface body of `wc_arrange_layer` (layer_shell.c):
compute the arranged rectangle from the anchors, desired size and
margins inside `bounds` and issue a configure; close the surface when
the computed width is negative (the source tests `width < 0` twice and
never tests the height).  The usable area is NOT shrunk: the source
holds only `TODO Apply exclusive zones` at that point. -/
def wc_arrange_one (full_area usable_area : WlrBox) (exclusive : Bool)
    (wc_layer : WcLayer) : WcLayer × List LayerEffect :=
  let state := wc_layer.current
  if exclusive ≠ decide (0 < state.exclusive_zone) then (wc_layer, [])
  else
    let bounds := if state.exclusive_zone = -1 then full_area else usable_area
    let aw := state.desired_width
    let ah := state.desired_height
    let (ax, aw) :=
      if state.anchor &&& LAYER_BOTH_HORIZ ≠ 0 ∧ aw = 0 then
        (bounds.x, bounds.width)
      else if state.anchor &&& ANCHOR_LEFT ≠ 0 then
        (bounds.x, aw)
      else if state.anchor &&& ANCHOR_RIGHT ≠ 0 then
        (bounds.x + (bounds.width - aw), aw)
      else
        (bounds.x + ((Int.tdiv bounds.width 2) - (Int.tdiv aw 2)), aw)
    let (ay, ah) :=
      if state.anchor &&& LAYER_BOTH_VERT ≠ 0 ∧ ah = 0 then
        (bounds.y, bounds.height)
      else if state.anchor &&& ANCHOR_TOP ≠ 0 then
        (bounds.y, ah)
      else if state.anchor &&& ANCHOR_BOTTOM ≠ 0 then
        (bounds.y + (bounds.height - ah), ah)
      else
        (bounds.y + ((Int.tdiv bounds.height 2) - (Int.tdiv ah 2)), ah)
    let (ax, aw) :=
      if state.anchor &&& LAYER_BOTH_HORIZ = LAYER_BOTH_HORIZ then
        (ax + state.margin.left, aw - (state.margin.left + state.margin.right))
      else if state.anchor &&& ANCHOR_LEFT ≠ 0 then
        (ax + state.margin.left, aw)
      else if state.anchor &&& ANCHOR_RIGHT ≠ 0 then
        (ax - state.margin.right, aw)
      else (ax, aw)
    let (ay, ah) :=
      if state.anchor &&& LAYER_BOTH_VERT = LAYER_BOTH_VERT then
        (ay + state.margin.top, ah - (state.margin.top + state.margin.bottom))
      else if state.anchor &&& ANCHOR_TOP ≠ 0 then
        (ay + state.margin.top, ah)
      else if state.anchor &&& ANCHOR_BOTTOM ≠ 0 then
        (ay - state.margin.bottom, ah)
      else (ay, ah)
    if aw < 0 ∨ aw < 0 then
      ({ wc_layer with closed := true }, [LayerEffect.close wc_layer.id])
    else
      ({ wc_layer with geo := { x := ax, y := ay, width := aw, height := ah } },
        [LayerEffect.configure wc_layer.id aw ah])

/-- `wc_arrange_layer` (layer_shell.c): arrange every surface of one
layer list against the current usable area.  The usable area is
returned unchanged, faithful to the source, whose exclusive-zone
accounting is an unimplemented `TODO`. -/
def wc_arrange_layer (full_area : WlrBox) (layers : List WcLayer)
    (usable_area : WlrBox) (exclusive : Bool) :
    List WcLayer × WlrBox × List LayerEffect :=
  let r := layers.foldl
    (fun (acc : List WcLayer × List LayerEffect) (l : WcLayer) =>
      let le := wc_arrange_one full_area usable_area exclusive l
      (acc.1 ++ [le.1], acc.2 ++ le.2))
    ([], [])
  (r.1, usable_area, r.2)

/-- The four per-output layer lists, each in the iteration order of the
source's `wl_list_for_each_reverse` (insertion order). -/
structure WcOutputLayers where
  background : List WcLayer
  bottom : List WcLayer
  top : List WcLayer
  overlay : List WcLayer
deriving Repr, DecidableEq

/-- Result of `wc_layer_shell_arrange_layers`: the rearranged lists,
the output's new `usable_area`, the protocol effects, and the layer
that captures keyboard focus (if any). -/
structure ArrangeResult where
  layers : WcOutputLayers
  usable_area : WlrBox
  effects : List LayerEffect
  focus_layer : Option Nat
deriving Repr, DecidableEq

/-- `wc_layer_shell_arrange_layers` (layer_shell.c): two passes over
the four layers (exclusive-zone claimants first), `usable_area` copied
into the output between the passes, then the topmost
keyboard-interactive surface of the overlay/top layers is computed for
keyboard focus. -/
def wc_layer_shell_arrange_layers (width height : Int)
    (ls : WcOutputLayers) : ArrangeResult :=
  let full_area : WlrBox := { x := 0, y := 0, width := width, height := height }
  let usable : WlrBox := { x := 0, y := 0, width := width, height := height }
  let r1 := wc_arrange_layer full_area ls.overlay usable true
  let r2 := wc_arrange_layer full_area ls.top r1.2.1 true
  let r3 := wc_arrange_layer full_area ls.bottom r2.2.1 true
  let r4 := wc_arrange_layer full_area ls.background r3.2.1 true
  let usable_out := r4.2.1
  let r5 := wc_arrange_layer full_area r1.1 r4.2.1 false
  let r6 := wc_arrange_layer full_area r2.1 r5.2.1 false
  let r7 := wc_arrange_layer full_area r3.1 r6.2.1 false
  let r8 := wc_arrange_layer full_area r4.1 r7.2.1 false
  let topmost :=
    match r5.1.find? (fun l => l.current.keyboard_interactive) with
    | some l => some l.id
    | none =>
        match r6.1.find? (fun l => l.current.keyboard_interactive) with
        | some l => some l.id
        | none => none
  { layers :=
      { background := r8.1, bottom := r7.1, top := r6.1, overlay := r5.1 },
    usable_area := usable_out,
    effects := r1.2.2 ++ r2.2.2 ++ r3.2.2 ++ r4.2.2 ++ r5.2.2 ++ r6.2.2 ++
      r7.2.2 ++ r8.2.2,
    focus_layer := topmost }

/-! Per-output frame rendering (output.c). -/

/-- A rendered element: a layer surface or a view. -/
inductive Rendered
  | layer (id : Nat)
  | view (id : Nat)
deriving Repr, DecidableEq

/-- Inputs of one `wc_output_frame` invocation: whether
`wlr_output_damage_attach_render` succeeded and signalled `needs_swap`,
the computed damage region (as a list of non-empty rectangles), and the
output's layer lists and the server's view list. -/
structure FrameInput where
  attach_ok : Bool
  needs_swap : Bool
  damage : List WlrBox
  layers : WcOutputLayers
  views : List WcView
deriving Repr, DecidableEq

/-- Result of one `wc_output_frame` invocation. -/
structure FrameResult where
  rendered : List Rendered
  software_cursors_rendered : Bool
  committed : Bool
deriving Repr, DecidableEq

/-- `wc_render_layers` (output.c): render the mapped surfaces of one
layer list, in reverse list order (head of the intrusive list drawn
last). -/
def wc_render_layers (layers : List WcLayer) : List Rendered :=
  (layers.reverse.filter (fun l => l.mapped)).map (fun l => Rendered.layer l.id)

/-- The view-rendering loop of `wc_output_frame`: mapped views in
reverse list order, so the head (topmost) draws last. -/
def wc_render_views (views : List WcView) : List Rendered :=
  (views.reverse.filter (fun v => v.mapped)).map (fun v => Rendered.view v.id)

/-- `wc_output_frame` (output.c): skip everything when attach fails;
end without rendering or committing when `needs_swap` is false; when
the damage region is empty skip the painting but still render software
cursors and commit; otherwise clear, paint background/bottom layers,
views, top/overlay layers, render software cursors and commit. -/
def wc_output_frame (input : FrameInput) : FrameResult :=
  if ¬input.attach_ok then
    { rendered := [], software_cursors_rendered := false, committed := false }
  else if ¬input.needs_swap then
    { rendered := [], software_cursors_rendered := false, committed := false }
  else if input.damage = [] then
    { rendered := [], software_cursors_rendered := true, committed := true }
  else
    { rendered :=
        wc_render_layers input.layers.background ++
        wc_render_layers input.layers.bottom ++
        wc_render_views input.views ++
        wc_render_layers input.layers.top ++
        wc_render_layers input.layers.overlay,
      software_cursors_rendered := true,
      committed := true }

/-! Statement helpers and concrete fixtures. -/

/-- The condition under which the keybinding filter considers a key
registered: an entry is present for the keycode and its stored mask
intersects the queried mask (the code tests `out_mask & key_mask`). -/
def registered_chord_matches (keybindings : WcKeybindings)
    (key_code key_mask : Nat) : Prop :=
  (xkb_hash_set_get_entry keybindings.registered_keys key_code).1 = true ∧
  (xkb_hash_set_get_entry keybindings.registered_keys key_code).2 &&&
    key_mask ≠ 0

/-- Whether the keyboard-focused client is the keybindings singleton's
stored client. -/
def controller_is_focused (keybindings : WcKeybindings)
    (focused_client : Option Nat) : Prop :=
  ∃ fc, focused_client = some fc ∧ keybindings.client = some fc

/-- A mapped 400×300 view with surface id 7 at (100,100). -/
def fixture_view : WcView :=
  ⟨7, true, ⟨100, 100, 400, 300⟩, ⟨0, 0, 0, 0⟩, false⟩

/-- An inert grab record. -/
def fixture_grabbed_idle : WcGrabbed := ⟨none, 0, 0, ⟨0, 0, 0, 0⟩, 0⟩

/-- A 1920×1080 output at the layout origin. -/
def fixture_output : WcOutputRef := ⟨0, 0, 0, 1920, 1080⟩

/-- A server in which a mousegrabber client (resource 1, client 2)
holds the grab with cursor image "watch", cursor at (120,110) over
`fixture_view`. -/
def server_grab_held : WcServer :=
  ⟨⟨120, 110, some "watch", false, "left_ptr", WcCursorMode.passthrough,
    fixture_grabbed_idle⟩,
   true, ⟨some 1, some 2⟩, [fixture_view], [fixture_output], some 0,
   none, none, CursorImage.named "watch", true⟩

/-- A server in the middle of an interactive move grab of
`fixture_view`: cursor moved to (520,410), grab snapshotted at offset
(20,10) from the view's (100,100) origin. -/
def server_move_grab : WcServer :=
  ⟨⟨520, 410, none, false, "left_ptr", WcCursorMode.move,
    ⟨some 7, 20, 10, ⟨100, 100, 400, 300⟩, 0⟩⟩,
   false, ⟨none, none⟩, [fixture_view], [fixture_output], some 0,
   some 7, some 7, CursorImage.named "left_ptr", false⟩

/-- A server in passthrough whose pointer-focused client has set a
client cursor image (surface 5); no grab held. -/
def server_client_cursor : WcServer :=
  ⟨⟨120, 110, none, true, "left_ptr", WcCursorMode.passthrough,
    fixture_grabbed_idle⟩,
   false, ⟨none, none⟩, [fixture_view], [fixture_output], some 0,
   some 7, none, CursorImage.surface 5 0 0, false⟩

/-- A server in passthrough at (120,110) with pointer focus on
`fixture_view` and no client cursor image, ready for a move request. -/
def server_premove : WcServer :=
  ⟨⟨120, 110, none, false, "left_ptr", WcCursorMode.passthrough,
    fixture_grabbed_idle⟩,
   false, ⟨none, none⟩, [fixture_view], [fixture_output], some 0,
   some 7, some 7, CursorImage.named "left_ptr", false⟩

/-- A press of button 272 at time 5. -/
def button_event_press : PointerButtonEvent := ⟨5, 272, true⟩

/-- Keybindings state with keycode 24 registered under mask 4 (Ctrl)
but no bound controller resource. -/
def kb_unbound_registered : WcKeybindings :=
  ⟨xkb_hash_set_add_entry xkb_hash_set_clear 24 4, none, none⟩

/-- Keybindings state with keycode 24 registered under mask 12
(Ctrl|Alt) and a bound controller resource. -/
def kb_bound_ctrl_alt : WcKeybindings :=
  ⟨xkb_hash_set_add_entry xkb_hash_set_clear 24 12, some 1, none⟩

/-- Keybindings state bound to resource 1 of client 1, no registrations. -/
def kb_bound_pair : WcKeybindings := ⟨xkb_hash_set_clear, some 1, some 1⟩

/-- Keyboard state: one ordinary keysym, no chord modifiers depressed,
Ctrl (mask 4) depressed. -/
def keyboard_plain : WcKeyboardState := ⟨[97], false, false, 4, 0, 0⟩

/-- A press of raw keycode 16 (translated keycode 24) at time 100. -/
def key_event_press : KeyEvent := ⟨16, true, 100⟩

/-- A bar layer surface anchored TOP|LEFT|RIGHT (mask 13) with desired
height 30 and exclusive zone 30, no margins. -/
def bar_layer : WcLayer :=
  ⟨1, true, ⟨0, 0, 0, 0⟩, ⟨13, 0, 30, 30, ⟨0, 0, 0, 0⟩, false⟩, false⟩

/-- Four layer lists holding only `bar_layer` in the top layer. -/
def layers_with_bar : WcOutputLayers := ⟨[], [], [bar_layer], []⟩

/-- A frame whose damage tracker signalled `needs_swap` but computed an
empty damage region, over one mapped view. -/
def frame_empty_damage : FrameInput :=
  ⟨true, true, [], layers_with_bar, [fixture_view]⟩

/-- A frame with damage over one unmapped view and one mapped bar. -/
def frame_with_unmapped_view : FrameInput :=
  ⟨true, true, [⟨0, 0, 50, 50⟩], layers_with_bar,
   [⟨9, false, ⟨0, 0, 10, 10⟩, ⟨0, 0, 0, 0⟩, false⟩, fixture_view]⟩

/-! Helper lemmas. -/

/-- The active-output re-evaluation touches only `active_output`. -/
theorem update_active_output_preserves (server : WcServer) :
    (wc_update_active_output server).cursor = server.cursor ∧
    (wc_update_active_output server).views = server.views ∧
    (wc_update_active_output server).mousegrabber = server.mousegrabber ∧
    (wc_update_active_output server).pointer_focused_surface =
      server.pointer_focused_surface := by
  unfold wc_update_active_output
  cases h : wlr_output_layout_output_at server.outputs server.cursor.x
      server.cursor.y
  · exact ⟨rfl, rfl, rfl, rfl⟩
  · simp only []
    split
    · exact ⟨rfl, rfl, rfl, rfl⟩
    · exact ⟨rfl, rfl, rfl, rfl⟩

/-- `wc_update_active_output` leaves the cursor unchanged. -/
theorem update_active_output_cursor (server : WcServer) :
    (wc_update_active_output server).cursor = server.cursor := by
  unfold wc_update_active_output
  cases h : wlr_output_layout_output_at server.outputs server.cursor.x
      server.cursor.y
  · rfl
  · simp only []
    split <;> rfl

/-- `wc_update_active_output` leaves the view list unchanged. -/
theorem update_active_output_views (server : WcServer) :
    (wc_update_active_output server).views = server.views := by
  unfold wc_update_active_output
  cases h : wlr_output_layout_output_at server.outputs server.cursor.x
      server.cursor.y
  · rfl
  · simp only []
    split <;> rfl

/-- `wc_update_active_output` leaves the mousegrabber unchanged. -/
theorem update_active_output_mousegrabber (server : WcServer) :
    (wc_update_active_output server).mousegrabber = server.mousegrabber := by
  unfold wc_update_active_output
  cases h : wlr_output_layout_output_at server.outputs server.cursor.x
      server.cursor.y
  · rfl
  · simp only []
    split <;> rfl

/-! Claim C2. -/

/-- Claim C2 fails on the code: destroying the grabbed view removes it
from the view list but leaves the cursor mode at `Move` and the grab
record still referencing the destroyed view, so the next motion event
dereferences the freed view (`wc_process_motion` reads
`cursor->grabbed.view` unconditionally in the `Move` branch). -/
theorem c2_destroy_leaves_grab :
    server_move_grab.cursor.cursor_mode = WcCursorMode.move ∧
    server_move_grab.cursor.grabbed.view = some 7 ∧
    (wc_xdg_surface_destroy server_move_grab 7).views = [] ∧
    (wc_xdg_surface_destroy server_move_grab 7).cursor.cursor_mode =
      WcCursorMode.move ∧
    (wc_xdg_surface_destroy server_move_grab 7).cursor.grabbed.view =
      some 7 := by
  decide

/-! Claim C4. -/

/-- Claim C4 fails on the code: after arranging an 800×600 output with
one TOP|LEFT|RIGHT-anchored bar of exclusive zone 30, the output's
usable area is still the full 800×600 (the source's exclusive-zone
accounting is an unimplemented TODO), not 800×570 as the claim
requires; the bar itself is still arranged to (0,0,800,30). -/
theorem c4_usable_area_not_shrunk :
    (wc_layer_shell_arrange_layers 800 600 layers_with_bar).usable_area =
      ⟨0, 0, 800, 600⟩ ∧
    (wc_layer_shell_arrange_layers 800 600 layers_with_bar).usable_area ≠
      ⟨0, 30, 800, 570⟩ ∧
    (wc_layer_shell_arrange_layers 800 600 layers_with_bar).layers.top.map
        (fun l => l.geo) = [⟨0, 0, 800, 30⟩] := by
  decide

/-! Claim C7. -/

/-- Claim C7 is false as stated for the keybindings half: with client
1's resource 1 bound, a bind by a second client's resource 2 raises no
protocol error and silently replaces the stored resource (the stored
`client` is not even updated). -/
theorem c7_counterexample :
    kb_bound_pair.resource = some 1 ∧
    (keybindings_bind kb_bound_pair 2).resource = some 2 ∧
    (keybindings_bind kb_bound_pair 2).client = some 1 := by
  exact ⟨rfl, rfl, rfl⟩

/-- Claim C7, amended: the mousegrabber half holds — `grab_mouse` while
another resource holds the grab is rejected with `ALREADY_GRABBED` and
the state is unchanged — but a second keybindings bind silently
replaces the stored resource with no protocol error. -/
theorem c7_amended :
    (∀ (server : WcServer) (client resource r : Nat) (name : String),
        server.mousegrabber.resource = some r →
        grab_mouse server client resource name =
          (server, some MousegrabberError.already_grabbed)) ∧
    (∀ (keybindings : WcKeybindings) (resource : Nat),
        (keybindings_bind keybindings resource).resource = some resource ∧
        (keybindings_bind keybindings resource).client =
          keybindings.client ∧
        (keybindings_bind keybindings resource).registered_keys =
          keybindings.registered_keys) := by
  constructor
  · intro server client resource r name h
    simp [grab_mouse, h]
  · intro keybindings resource
    exact ⟨rfl, rfl, rfl⟩

/-- Witness for `c7_amended` at a concrete state: the second
mousegrabber client's grab attempt is rejected, and the second
keybindings bind displaces resource 1 by resource 2. -/
theorem c7_witness :
    grab_mouse server_grab_held 9 3 "left_ptr" =
      (server_grab_held, some MousegrabberError.already_grabbed) ∧
    (keybindings_bind kb_bound_pair 2).resource = some 2 :=
  ⟨c7_amended.1 server_grab_held 9 3 1 "left_ptr" rfl,
   (c7_amended.2 kb_bound_pair 2).1⟩

/-! Claim C10. -/

/-- Claim C10: a successful `grab_mouse` unconditionally resets the
cursor mode to `Passthrough` (aborting any interactive move/resize in
progress), records the grabber resource and client, raises
`mouse_grab`, applies the requested cursor image, and leaves the now
inert grab record in place. -/
theorem c10_grab_resets_cursor_mode (server : WcServer)
    (client resource : Nat) (name : String)
    (h : server.mousegrabber.resource = none) :
    (grab_mouse server client resource name).2 = none ∧
    (grab_mouse server client resource name).1.cursor.cursor_mode =
      WcCursorMode.passthrough ∧
    (grab_mouse server client resource name).1.mouse_grab = true ∧
    (grab_mouse server client resource name).1.mousegrabber =
      ⟨some resource, some client⟩ ∧
    (grab_mouse server client resource name).1.applied_image =
      CursorImage.named name ∧
    (grab_mouse server client resource name).1.cursor.grabbed =
      server.cursor.grabbed := by
  simp only [grab_mouse, h, wc_cursor_set_compositor_cursor]
  split_ifs <;> simp_all

/-- Witness for `c10_grab_resets_cursor_mode`: grabbing the mouse while
`server_move_grab` is in the middle of an interactive move aborts the
move (mode returns to `Passthrough`). -/
theorem c10_witness :
    (grab_mouse server_move_grab 9 3 "watch").2 = none ∧
    (grab_mouse server_move_grab 9 3 "watch").1.cursor.cursor_mode =
      WcCursorMode.passthrough ∧
    (grab_mouse server_move_grab 9 3 "watch").1.mouse_grab = true ∧
    (grab_mouse server_move_grab 9 3 "watch").1.mousegrabber =
      ⟨some 3, some 9⟩ ∧
    (grab_mouse server_move_grab 9 3 "watch").1.applied_image =
      CursorImage.named "watch" ∧
    (grab_mouse server_move_grab 9 3 "watch").1.cursor.grabbed =
      server_move_grab.cursor.grabbed := by
  have h := c10_grab_resets_cursor_mode server_move_grab 9 3 "watch" rfl
  exact h

/-! Claim C1. -/

/-- Claim C1 is false as stated: with the mousegrabber holding the grab
(`mouse_grab` true, resource bound), a pointer button event produces NO
effects at all — in particular it is not forwarded to the grabber as a
`mouse_button` event (`wc_cursor_button` returns early and
`wc_mousegrabber_notify_mouse_button` has no caller) — and a motion
event still delivers pointer enter to the client under the cursor. -/
theorem c1_counterexample :
    server_grab_held.mouse_grab = true ∧
    server_grab_held.mousegrabber.resource = some 1 ∧
    (wc_cursor_button server_grab_held button_event_press).2 = [] ∧
    Effect.seat_pointer_enter 7 20 10 ∈
      (wc_process_motion server_grab_held 100).2 := by
  decide

/-- Claim C1, amended: while the cursor-override grab is held, button
events are dropped entirely (delivered neither to the seat nor to the
grabber), and a motion event in passthrough mode sends `mouse_moved` to
the grabber but also still delivers pointer enter for the surface under
the cursor. -/
theorem c1_amended :
    (∀ (server : WcServer) (event : PointerButtonEvent),
        server.mouse_grab = true →
        wc_cursor_button server event = (server, [])) ∧
    (∀ (server : WcServer) (time : Nat) (view : WcView),
        server.cursor.cursor_mode = WcCursorMode.passthrough →
        wc_view_at server.views server.cursor.x server.cursor.y = some view →
        server.mousegrabber.resource.isSome = true →
        Effect.mousegrabber_mouse_moved server.cursor.x server.cursor.y ∈
          (wc_process_motion server time).2 ∧
        Effect.seat_pointer_enter view.id (server.cursor.x - view.geo.x)
          (server.cursor.y - view.geo.y) ∈ (wc_process_motion server time).2) := by
  constructor
  · intro server event h
    simp [wc_cursor_button, h]
  · intro server time view hmode hat hres
    obtain ⟨r, hr⟩ := Option.isSome_iff_exists.mp hres
    by_cases hfoc : server.pointer_focused_surface = some view.id <;>
      simp [wc_process_motion, hmode, hat, hfoc, wc_seat_update_surface_focus,
        update_active_output_cursor, update_active_output_mousegrabber,
        wc_mousegrabber_notify_mouse_moved, hr]

/-- Witness for `c1_amended` at `server_grab_held`: the button press is
dropped whole, and motion both notifies the grabber and sends enter to
the surface of `fixture_view`. -/
theorem c1_witness :
    wc_cursor_button server_grab_held button_event_press =
      (server_grab_held, []) ∧
    Effect.mousegrabber_mouse_moved 120 110 ∈
      (wc_process_motion server_grab_held 100).2 ∧
    Effect.seat_pointer_enter 7 20 10 ∈
      (wc_process_motion server_grab_held 100).2 := by
  have h1 := c1_amended.1 server_grab_held button_event_press rfl
  have h2 := c1_amended.2 server_grab_held 100 fixture_view rfl (by decide) rfl
  exact ⟨h1, by simpa using h2.1, by simpa using h2.2⟩

/-! Claim C5. -/

/-- Claim C5 is false as stated: with a client-provided cursor image
(surface 5) in effect before the grab, `grab("watch")` followed by
`release()` leaves the compositor cursor at the default image
"left_ptr", not at the client image that was in effect before the
grab. -/
theorem c5_counterexample :
    server_client_cursor.applied_image = CursorImage.surface 5 0 0 ∧
    (grab_mouse server_client_cursor 9 3 "watch").2 = none ∧
    (release_mouse (grab_mouse server_client_cursor 9 3 "watch").1 9).2 =
      none ∧
    (release_mouse (grab_mouse server_client_cursor 9 3 "watch").1 9).1.applied_image =
      CursorImage.named "left_ptr" ∧
    CursorImage.named "left_ptr" ≠ CursorImage.surface 5 0 0 := by
  decide

/-- Claim C5, amended: a successful `grab(name)` followed by a
successful `release()` always sets the compositor cursor image to the
default image name and unlocks software cursors; the pre-grab image is
therefore restored only when it was the default image. -/
theorem c5_release_restores_default (server : WcServer)
    (client resource : Nat) (name : String)
    (h : server.mousegrabber.resource = none) :
    (grab_mouse server client resource name).2 = none ∧
    (release_mouse (grab_mouse server client resource name).1 client).2 =
      none ∧
    (release_mouse (grab_mouse server client resource name).1
        client).1.applied_image =
      CursorImage.named server.cursor.default_image ∧
    (release_mouse (grab_mouse server client resource name).1
        client).1.software_cursors_locked = false ∧
    (release_mouse (grab_mouse server client resource name).1
        client).1.mousegrabber = ⟨none, none⟩ := by
  simp only [grab_mouse, h, wc_cursor_set_compositor_cursor, release_mouse,
    mousegrabber_handle_resource_destroy]
  split_ifs <;> simp_all

/-- Witness for `c5_release_restores_default` at
`server_client_cursor`: the grab/release round trip ends on the
default image "left_ptr". -/
theorem c5_witness :
    (grab_mouse server_client_cursor 9 3 "watch").2 = none ∧
    (release_mouse (grab_mouse server_client_cursor 9 3 "watch").1
        9).1.applied_image = CursorImage.named "left_ptr" := by
  have h := c5_release_restores_default server_client_cursor 9 3 "watch" rfl
  exact ⟨h.1, h.2.2.1⟩

/-! Claim C8. -/

/-- Claim C8: a motion event in `Move` mode repositions the grabbed
view to cursor − original offset, damaging the whole view both before
(at its old geometry) and after (at its new geometry); and the move
request handler snapshots the offset as cursor-at-grab minus
view-position-at-grab. -/
theorem c8_move_semantics :
    (∀ (server : WcServer) (time : Nat) (vid : Nat) (view : WcView),
        server.cursor.cursor_mode = WcCursorMode.move →
        server.cursor.grabbed.view = some vid →
        server.views.find? (fun v => v.id = vid) = some view →
        (wc_process_motion server time).1.views =
          server.views.map (fun v =>
            if v.id = vid then
              { v with geo := { view.geo with
                  x := server.cursor.x - server.cursor.grabbed.original_x,
                  y := server.cursor.y - server.cursor.grabbed.original_y } }
            else v) ∧
        (wc_process_motion server time).2 =
          Effect.damage_whole_view vid view.geo ::
            Effect.damage_whole_view vid { view.geo with
                x := server.cursor.x - server.cursor.grabbed.original_x,
                y := server.cursor.y - server.cursor.grabbed.original_y } ::
            wc_mousegrabber_notify_mouse_moved server.mousegrabber
              server.cursor.x server.cursor.y) ∧
    (∀ (server : WcServer) (vid : Nat) (view : WcView) (geo : WlrBox),
        server.views.find? (fun v => v.id = vid) = some view →
        server.pointer_focused_surface = some vid →
        (wc_view_move server vid geo).cursor.cursor_mode =
          WcCursorMode.move ∧
        (wc_view_move server vid geo).cursor.grabbed =
          ⟨some vid, server.cursor.x - view.geo.x,
           server.cursor.y - view.geo.y,
           ⟨view.geo.x, view.geo.y, geo.width, geo.height⟩,
           server.cursor.grabbed.resize_edges⟩) := by
  constructor
  · intro server time vid view hmode hgrab hfind
    simp [wc_process_motion, hmode, hgrab, hfind, update_active_output_views,
      update_active_output_cursor, update_active_output_mousegrabber]
  · intro server vid view geo hfind hfoc
    simp [wc_view_move, hfind, hfoc]

/-- Witness for `c8_move_semantics`, the spec's S1 numbers: a grab at
cursor (120,110) on a view at (100,100) snapshots offset (20,10), and
motion to (520,410) puts the view at (500,400), damaging the whole view
at both its old and its new rectangle. -/
theorem c8_witness :
    (wc_view_move server_premove 7 ⟨100, 100, 400, 300⟩).cursor.grabbed =
      ⟨some 7, 20, 10, ⟨100, 100, 400, 300⟩, 0⟩ ∧
    (wc_process_motion server_move_grab 50).1.views =
      [{ fixture_view with geo := ⟨500, 400, 400, 300⟩ }] ∧
    (wc_process_motion server_move_grab 50).2 =
      [Effect.damage_whole_view 7 ⟨100, 100, 400, 300⟩,
       Effect.damage_whole_view 7 ⟨500, 400, 400, 300⟩] := by
  refine ⟨?_, ?_, ?_⟩
  · exact ((c8_move_semantics.2 server_premove 7 fixture_view
      ⟨100, 100, 400, 300⟩ (by decide) rfl).2).trans (by decide)
  · exact ((c8_move_semantics.1 server_move_grab 50 7 fixture_view rfl rfl
      (by decide)).1).trans (by decide)
  · exact ((c8_move_semantics.1 server_move_grab 50 7 fixture_view rfl rfl
      (by decide)).2).trans (by decide)

/-! Helper lemmas for the keyboard path. -/

/-- The sym loop emits only VT changes and terminations. -/
theorem mem_syms_effects (keyboard : WcKeyboardState) (e : KeyEffect)
    (h : e ∈ wc_syms_effects keyboard) :
    (∃ vt, e = KeyEffect.change_vt vt) ∨ e = KeyEffect.terminate_display := by
  simp only [wc_syms_effects, List.mem_flatMap] at h
  obtain ⟨sym, hsym, hmem⟩ := h
  simp only [wc_sym_effects, List.mem_append] at hmem
  rcases hmem with hmem | hmem
  · split at hmem <;> simp_all
  · split at hmem <;> simp_all

/-- With no bound controller resource the filter does nothing and
reports the key unhandled. -/
theorem notify_unbound (keybindings : WcKeybindings)
    (focused_client : Option Nat) (key_code key_mask : Nat) (pressed : Bool)
    (time : Nat) (h : keybindings.resource = none) :
    wc_keybindings_notify_key_if_registered keybindings focused_client
      key_code key_mask pressed time = (false, []) := by
  simp [wc_keybindings_notify_key_if_registered, h]

/-- With a bound controller resource the filter always sends the key
event, carrying the raw queried mask. -/
theorem notify_effects_of_bound (keybindings : WcKeybindings)
    (focused_client : Option Nat) (key_code key_mask : Nat) (pressed : Bool)
    (time r : Nat) (h : keybindings.resource = some r) :
    (wc_keybindings_notify_key_if_registered keybindings focused_client
        key_code key_mask pressed time).2 =
      [KeyEffect.send_key time key_code pressed key_mask] := by
  simp [wc_keybindings_notify_key_if_registered, h]

/-- With a bound controller resource the filter reports the key handled
iff the keycode is registered with an intersecting mask or the focused
client is the stored controller client. -/
theorem notify_handled_iff (keybindings : WcKeybindings)
    (focused_client : Option Nat) (key_code key_mask : Nat) (pressed : Bool)
    (time r : Nat) (h : keybindings.resource = some r) :
    ((wc_keybindings_notify_key_if_registered keybindings focused_client
        key_code key_mask pressed time).1 = true) ↔
      (registered_chord_matches keybindings key_code key_mask ∨
        controller_is_focused keybindings focused_client) := by
  simp only [wc_keybindings_notify_key_if_registered, h,
    registered_chord_matches, controller_is_focused]
  cases hp : (xkb_hash_set_get_entry keybindings.registered_keys key_code).1 <;>
    cases focused_client <;> simp_all

/-- When a sym handled the key, the handler emits only the sym loop's
effects. -/
theorem on_key_of_syms_handled (keybindings : WcKeybindings)
    (keyboard : WcKeyboardState) (focused_client : Option Nat)
    (event : KeyEvent) (hs : wc_syms_handled keyboard = true) :
    wc_keyboard_on_key keybindings keyboard focused_client event =
      wc_syms_effects keyboard := by
  simp [wc_keyboard_on_key, hs]

/-- When no sym handled the key and no controller is bound, the key
goes to the seat. -/
theorem on_key_of_unbound (keybindings : WcKeybindings)
    (keyboard : WcKeyboardState) (focused_client : Option Nat)
    (event : KeyEvent) (hs : wc_syms_handled keyboard = false)
    (hr : keybindings.resource = none) :
    wc_keyboard_on_key keybindings keyboard focused_client event =
      wc_syms_effects keyboard ++
        [KeyEffect.seat_notify_key event.time_msec event.keycode
          event.pressed] := by
  simp [wc_keyboard_on_key, hs, wc_keybindings_notify_key_if_registered, hr]

/-- When no sym handled the key and a controller is bound, the handler
sends the key event to the controller and appends the seat delivery iff
the filter reported the key unhandled. -/
theorem on_key_of_bound (keybindings : WcKeybindings)
    (keyboard : WcKeyboardState) (focused_client : Option Nat)
    (event : KeyEvent) (r : Nat) (hs : wc_syms_handled keyboard = false)
    (hr : keybindings.resource = some r) :
    wc_keyboard_on_key keybindings keyboard focused_client event =
      wc_syms_effects keyboard ++
        [KeyEffect.send_key event.time_msec (event.keycode + 8) event.pressed
          (keyboard.depressed ||| keyboard.latched ||| keyboard.locked)] ++
        (if (wc_keybindings_notify_key_if_registered keybindings
              focused_client (event.keycode + 8)
              (keyboard.depressed ||| keyboard.latched ||| keyboard.locked)
              event.pressed event.time_msec).1 = true then []
         else [KeyEffect.seat_notify_key event.time_msec event.keycode
           event.pressed]) := by
  have he := notify_effects_of_bound keybindings focused_client
    (event.keycode + 8)
    (keyboard.depressed ||| keyboard.latched ||| keyboard.locked)
    event.pressed event.time_msec r hr
  simp only [wc_keyboard_on_key, hs, Bool.not_false, if_true]
  cases hh : (wc_keybindings_notify_key_if_registered keybindings
      focused_client (event.keycode + 8)
      (keyboard.depressed ||| keyboard.latched ||| keyboard.locked)
      event.pressed event.time_msec).1 <;>
    simp_all

/-! Claim C3. -/

/-- Claim C3 is false as stated: with keycode 24 registered under a
matching mask but NO controller resource currently bound (e.g. the
controller registered keys and then disconnected; the registration set
survives), a press of that chord is still delivered to the seat, while
the claim requires it suppressed whenever the keycode is registered
with a matching mask. -/
theorem c3_counterexample :
    KeyEffect.seat_notify_key 100 16 true ∈
      wc_keyboard_on_key kb_unbound_registered keyboard_plain none
        key_event_press ∧
    (xkb_hash_set_get_entry kb_unbound_registered.registered_keys 24).1 =
      true ∧
    (xkb_hash_set_get_entry kb_unbound_registered.registered_keys 24).2 &&&
      (keyboard_plain.depressed ||| keyboard_plain.latched |||
        keyboard_plain.locked) ≠ 0 ∧
    wc_syms_handled keyboard_plain = false ∧
    kb_unbound_registered.resource = none := by
  decide

/-- Claim C3, amended: a key event reaches a regular client via the
seat iff no keysym of the event is a VT-switch sym or the
Ctrl+Shift+Escape terminator chord, AND it is not the case that a
controller resource is bound while either the (translated) keycode is
registered with an intersecting modifier mask or the keyboard-focused
client is the stored controller client. -/
theorem c3_delivery_iff (keybindings : WcKeybindings)
    (keyboard : WcKeyboardState) (focused_client : Option Nat)
    (event : KeyEvent) :
    (KeyEffect.seat_notify_key event.time_msec event.keycode event.pressed ∈
        wc_keyboard_on_key keybindings keyboard focused_client event) ↔
      (wc_syms_handled keyboard = false ∧
        ¬(keybindings.resource.isSome = true ∧
          (registered_chord_matches keybindings (event.keycode + 8)
              (keyboard.depressed ||| keyboard.latched ||| keyboard.locked) ∨
            controller_is_focused keybindings focused_client))) := by
  cases hs : wc_syms_handled keyboard
  · cases hr : keybindings.resource with
    | none =>
        rw [on_key_of_unbound keybindings keyboard focused_client event hs hr]
        simp [hr]
    | some r =>
        rw [on_key_of_bound keybindings keyboard focused_client event r hs hr]
        have hiff := notify_handled_iff keybindings focused_client
          (event.keycode + 8)
          (keyboard.depressed ||| keyboard.latched ||| keyboard.locked)
          event.pressed event.time_msec r hr
        cases hh : (wc_keybindings_notify_key_if_registered keybindings
            focused_client (event.keycode + 8)
            (keyboard.depressed ||| keyboard.latched ||| keyboard.locked)
            event.pressed event.time_msec).1
        · rw [hh] at hiff
          simp only [Bool.false_eq_true, false_iff, not_or] at hiff
          simp [hh, hr, hiff.1, hiff.2]
        · rw [hh] at hiff
          simp only [true_iff] at hiff
          constructor
          · intro hmem
            simp only [hh, if_true, List.append_nil, List.mem_append] at hmem
            rcases hmem with hmem | hmem
            · rcases mem_syms_effects keyboard _ hmem with ⟨vt, hvt⟩ | hvt <;>
                simp_all
            · simp_all
          · rintro ⟨-, hcon⟩
            exact absurd ⟨by simp [hr], hiff⟩ hcon
  · rw [on_key_of_syms_handled keybindings keyboard focused_client event hs]
    constructor
    · intro hmem
      rcases mem_syms_effects keyboard _ hmem with ⟨vt, hvt⟩ | hvt <;> simp_all
    · rintro ⟨hfalse, -⟩
      exact absurd hfalse (by simp [hs])

/-! Claim C6. -/

/-- Claim C6 is false as stated: `xkb_hash_set_add_entry` stores the
mask unmodified, so registering keycode 24 with the bare caps-lock bit
(mask 2) stores 2, not the stripped 0; and the controller receives the
raw queried mask (Ctrl|Alt|CapsLock = 14), not the stripped Ctrl|Alt =
12, when keycode 24 registered as Ctrl|Alt (12) is pressed with caps
lock on. -/
theorem c6_counterexample :
    ((xkb_hash_set_add_entry xkb_hash_set_clear 24 2).set 24).mod_mask = 2 ∧
    ((xkb_hash_set_add_entry xkb_hash_set_clear 24 2).set 24).mod_mask ≠
      0 ∧
    (wc_keybindings_notify_key_if_registered kb_bound_ctrl_alt (some 9) 24 14
        true 5).2 = [KeyEffect.send_key 5 24 true 14] ∧
    (wc_keybindings_notify_key_if_registered kb_bound_ctrl_alt (some 9) 24 14
        true 5).1 = true ∧
    (14 : Nat) ≠ 12 := by
  decide

/-- Claim C6, amended: no modifier stripping happens anywhere on the
current code path — the stored mask is the registration mask verbatim,
the key event sent to the controller carries the raw queried mask, and
a registered chord matches iff the stored and queried masks intersect
(bitwise AND nonzero), so caps-lock/num-lock bits in the queried mask
do not prevent a match but are also not removed from the reported
modifiers. -/
theorem c6_no_mask_stripping :
    (∀ (hash_set : XkbHashSet) (key mask : Nat),
        (xkb_hash_set_add_entry hash_set key mask).set key =
          ⟨mask, true⟩) ∧
    (∀ (keybindings : WcKeybindings) (focused_client : Option Nat)
        (key_code key_mask : Nat) (pressed : Bool) (time r : Nat),
        keybindings.resource = some r →
        (wc_keybindings_notify_key_if_registered keybindings focused_client
            key_code key_mask pressed time).2 =
          [KeyEffect.send_key time key_code pressed key_mask] ∧
        ((wc_keybindings_notify_key_if_registered keybindings focused_client
            key_code key_mask pressed time).1 = true ↔
          (registered_chord_matches keybindings key_code key_mask ∨
            controller_is_focused keybindings focused_client))) := by
  constructor
  · intro hash_set key mask
    simp [xkb_hash_set_add_entry]
  · intro keybindings focused_client key_code key_mask pressed time r h
    exact ⟨notify_effects_of_bound keybindings focused_client key_code
        key_mask pressed time r h,
      notify_handled_iff keybindings focused_client key_code key_mask pressed
        time r h⟩

/-- Witness for `c6_no_mask_stripping`: registering (24, Ctrl|Alt=12)
and pressing with Ctrl|Alt|CapsLock=14 sends the raw mask 14 and
matches (12 &&& 14 ≠ 0). -/
theorem c6_witness :
    (xkb_hash_set_add_entry xkb_hash_set_clear 24 12).set 24 =
      ⟨12, true⟩ ∧
    (wc_keybindings_notify_key_if_registered kb_bound_ctrl_alt (some 9) 24 14
        true 5).2 = [KeyEffect.send_key 5 24 true 14] := by
  have h1 := c6_no_mask_stripping.1 xkb_hash_set_clear 24 12
  have h2 := (c6_no_mask_stripping.2 kb_bound_ctrl_alt (some 9) 24 14 true 5
    1 rfl).1
  exact ⟨h1, h2⟩

/-! Helper lemmas for the frame path. -/

/-- A rendered element of `wc_render_layers` comes from a mapped layer
of the list. -/
theorem mem_render_layers (layers : List WcLayer) (x : Rendered)
    (h : x ∈ wc_render_layers layers) :
    ∃ l ∈ layers, x = Rendered.layer l.id ∧ l.mapped = true := by
  simp only [wc_render_layers, List.mem_map, List.mem_filter,
    List.mem_reverse] at h
  obtain ⟨l, ⟨hl, hm⟩, rfl⟩ := h
  exact ⟨l, hl, rfl, hm⟩

/-- A rendered element of `wc_render_views` comes from a mapped view of
the list. -/
theorem mem_render_views (views : List WcView) (x : Rendered)
    (h : x ∈ wc_render_views views) :
    ∃ v ∈ views, x = Rendered.view v.id ∧ v.mapped = true := by
  simp only [wc_render_views, List.mem_map, List.mem_filter,
    List.mem_reverse] at h
  obtain ⟨v, ⟨hv, hm⟩, rfl⟩ := h
  exact ⟨v, hv, rfl, hm⟩

/-! Claim C9. -/

/-- Claim C9 is false as stated: when the damage tracker signals
`needs_swap` with an empty computed damage region, the frame skips the
painting (nothing rendered) but still renders software cursors and
commits the frame — the buffers ARE swapped. -/
theorem c9_counterexample :
    frame_empty_damage.needs_swap = true ∧
    frame_empty_damage.damage = [] ∧
    (wc_output_frame frame_empty_damage).rendered = [] ∧
    (wc_output_frame frame_empty_damage).software_cursors_rendered = true ∧
    (wc_output_frame frame_empty_damage).committed = true := by
  decide

/-- Claim C9, amended: a frame ends without render or commit exactly
when `needs_swap` is false (or attach fails); with `needs_swap` and an
empty damage region nothing is painted but software cursors are
rendered and the frame is committed; and in every frame only mapped
views and mapped layer surfaces are ever rendered. -/
theorem c9_frame_semantics :
    (∀ input : FrameInput, input.needs_swap = false →
        wc_output_frame input = ⟨[], false, false⟩) ∧
    (∀ input : FrameInput, input.damage = [] →
        (wc_output_frame input).rendered = []) ∧
    (∀ input : FrameInput, input.attach_ok = true → input.needs_swap = true →
        input.damage = [] →
        (wc_output_frame input).software_cursors_rendered = true ∧
        (wc_output_frame input).committed = true) ∧
    (∀ (input : FrameInput) (x : Rendered),
        x ∈ (wc_output_frame input).rendered →
        (∃ v ∈ input.views, x = Rendered.view v.id ∧ v.mapped = true) ∨
        (∃ l, (l ∈ input.layers.background ∨ l ∈ input.layers.bottom ∨
                l ∈ input.layers.top ∨ l ∈ input.layers.overlay) ∧
              x = Rendered.layer l.id ∧ l.mapped = true)) := by
  refine ⟨?_, ?_, ?_, ?_⟩
  · intro input h
    by_cases ha : input.attach_ok <;> simp [wc_output_frame, ha, h]
  · intro input h
    by_cases ha : input.attach_ok <;>
      by_cases hn : input.needs_swap <;>
        simp [wc_output_frame, ha, hn, h]
  · intro input ha hn h
    simp [wc_output_frame, ha, hn, h]
  · intro input x hx
    unfold wc_output_frame at hx
    split_ifs at hx <;> simp only [List.not_mem_nil] at hx
    simp only [List.mem_append] at hx
    rcases hx with ((((hx | hx) | hx) | hx) | hx)
    · obtain ⟨l, hl, rfl, hm⟩ := mem_render_layers _ _ hx
      exact Or.inr ⟨l, Or.inl hl, rfl, hm⟩
    · obtain ⟨l, hl, rfl, hm⟩ := mem_render_layers _ _ hx
      exact Or.inr ⟨l, Or.inr (Or.inl hl), rfl, hm⟩
    · obtain ⟨v, hv, rfl, hm⟩ := mem_render_views _ _ hx
      exact Or.inl ⟨v, hv, rfl, hm⟩
    · obtain ⟨l, hl, rfl, hm⟩ := mem_render_layers _ _ hx
      exact Or.inr ⟨l, Or.inr (Or.inr (Or.inl hl)), rfl, hm⟩
    · obtain ⟨l, hl, rfl, hm⟩ := mem_render_layers _ _ hx
      exact Or.inr ⟨l, Or.inr (Or.inr (Or.inr hl)), rfl, hm⟩

/-- Witness for `c9_frame_semantics` at concrete frames: a frame with
`needs_swap` false does nothing; `frame_empty_damage` paints nothing
yet renders cursors and commits; and the mapped `fixture_view` rendered
in `frame_with_unmapped_view` indeed comes from a mapped view. -/
theorem c9_witness :
    wc_output_frame ⟨true, false, [], layers_with_bar, [fixture_view]⟩ =
      ⟨[], false, false⟩ ∧
    (wc_output_frame frame_empty_damage).rendered = [] ∧
    ((wc_output_frame frame_empty_damage).software_cursors_rendered = true ∧
      (wc_output_frame frame_empty_damage).committed = true) ∧
    ((∃ v ∈ frame_with_unmapped_view.views,
        Rendered.view 7 = Rendered.view v.id ∧ v.mapped = true) ∨
      (∃ l, (l ∈ frame_with_unmapped_view.layers.background ∨
              l ∈ frame_with_unmapped_view.layers.bottom ∨
              l ∈ frame_with_unmapped_view.layers.top ∨
              l ∈ frame_with_unmapped_view.layers.overlay) ∧
            Rendered.view 7 = Rendered.layer l.id ∧ l.mapped = true)) := by
  refine ⟨?_, ?_, ?_, ?_⟩
  · exact c9_frame_semantics.1 ⟨true, false, [], layers_with_bar,
      [fixture_view]⟩ rfl
  · exact c9_frame_semantics.2.1 frame_empty_damage rfl
  · exact c9_frame_semantics.2.2.1 frame_empty_damage rfl rfl rfl
  · exact c9_frame_semantics.2.2.2 frame_with_unmapped_view
      (Rendered.view 7) (by decide)

end WayCooler
